import Mathlib

set_option maxRecDepth 100000

/-!
# Verification of the Conclusion Store (`CoConuT_Storage` / `CoConuTService`)

Shallow embedding of the conclusion-store subsystem of this repository
(`src/modules/coconut-storage.ts` and `src/modules/coconut.ts`) and proofs
about the claims of its specification.

Modelling conventions:
* JS `Map` is modelled as an insertion-ordered association list
  (`Map.set` overwrites in place, new keys are appended at the end;
  iteration is in insertion order, exactly as in JS).
* JS `Set` is modelled as an insertion-ordered duplicate-free list
  (`Set.add` appends if absent).
* `Date.now()` / `new Date().getTime()` instants are threaded as explicit
  `Nat` parameters (milliseconds); distinct call sites of `Date.now()` in
  the source receive distinct parameters where the distinction matters.
* JS number-to-string interpolation is modelled by the decimal printer
  `natToStr` below.
* File-system effects are modelled by an explicit `FsWorld` state plus an
  `IOPlan` that says which of the primitive operations (mkdir, readFile,
  writeFile) fail; a failing primitive raises the exception that the
  source catches, and leaves the world unchanged (the primitives are
  modelled as atomic; sub-syscall partial writes are below this
  abstraction).
* Unicode nuances: the `\p{L}` letter class and `toLowerCase` of the
  source are modelled by `Char.isAlpha` / `Char.toLower` (the ASCII
  fragment); the claims only exercise ASCII text.
-/

/-! ## Tokenizer

Model of the word-extraction pipeline shared by `indexContent` and
`searchConclusions` (coconut-storage.ts lines 192-196 and 219-222):
`content.toLowerCase().replace(/[^\p{L}\s]/gu, ' ').split(/\s+/).filter(w => w.length > 3)`.
-/

/-- One normalized character of the pipeline: lower-case first, then any
character that is neither a letter nor whitespace becomes a space. -/
def normalizeChar (c : Char) : Char :=
  let l := c.toLower
  if l.isAlpha || l.isWhitespace then l else ' '

/-- Split a character list on whitespace runs, dropping empty fields.
(JS `split(/\s+/)` can produce one leading empty string; the length
filter of the pipeline discards it in either case, so dropping empties
directly is observationally equal after the filter.) -/
def splitWsAux : List Char → List Char → List String
  | [], acc => if acc.isEmpty then [] else [String.mk acc.reverse]
  | c :: cs, acc =>
      if c.isWhitespace then
        (if acc.isEmpty then [] else [String.mk acc.reverse]) ++ splitWsAux cs []
      else
        splitWsAux cs (c :: acc)

def splitWs (cs : List Char) : List String := splitWsAux cs []

/-- `tokenize`: the full pipeline, keeping only tokens of length > 3. -/
def tokenize (content : String) : List String :=
  (splitWs (content.data.map normalizeChar)).filter (fun w => w.length > 3)

/-! ## InvertedIndex

`searchIndex : Map<string, Set<string>>` (coconut-storage.ts line 56),
`indexContent` (lines 190-210) and `searchConclusions` (lines 217-244).
-/

/-- The inverted index: term -> insertion-ordered set of conclusion ids. -/
abbrev SearchIndex := List (String × List String)

/-- JS `Set.add`: append the id if it is not already present. -/
def setAdd (id : String) (s : List String) : List String :=
  if id ∈ s then s else s ++ [id]

/-- One `words.forEach` step of `indexContent`: ensure the term has an
entry and add `id` to its set, preserving the map's insertion order. -/
def addWord (w id : String) : SearchIndex → SearchIndex
  | [] => [(w, [id])]
  | (k, s) :: rest =>
      if k = w then (k, setAdd id s) :: rest else (k, s) :: addWord w id rest

/-- `indexContent(id, content)`: tokenize the content and add `id` to each
token's id-set. -/
def indexContent (id content : String) (idx : SearchIndex) : SearchIndex :=
  (tokenize content).foldl (fun ix w => addWord w id ix) idx

/-- `searchIndex.get(term)`, as the (possibly empty) id list. -/
def lookupIdx (w : String) : SearchIndex → List String
  | [] => []
  | (k, s) :: rest => if k = w then s else lookupIdx w rest

/-- `results.set(id, (results.get(id) || 0) + 1)`: bump the score of `id`,
keeping the map's insertion order (new ids are appended with score 1). -/
def bumpScore (id : String) : List (String × Nat) → List (String × Nat)
  | [] => [(id, 1)]
  | (k, n) :: rest =>
      if k = id then (k, n + 1) :: rest else (k, n) :: bumpScore id rest

/-- Stable insert for the descending-by-score sort: an element placed
later never moves in front of an earlier element with the same score
(JS `Array.prototype.sort` is stable). -/
def insertByScore (x : String × Nat) : List (String × Nat) → List (String × Nat)
  | [] => [x]
  | y :: ys => if x.2 ≥ y.2 then x :: y :: ys else y :: insertByScore x ys

/-- `.sort((a, b) => b[1] - a[1])`: stable sort, descending by score. -/
def sortByScoreDesc (l : List (String × Nat)) : List (String × Nat) :=
  l.foldr insertByScore []

/-- `searchConclusions(query)`: score each id by the number of matched
query terms that its documents contained, then order ids by descending
score (ties keep first-seen order) and drop the scores. -/
def searchConclusions (query : String) (idx : SearchIndex) : List String :=
  let terms := tokenize query
  let scores := terms.foldl
    (fun acc term => (lookupIdx term idx).foldl (fun a id => bumpScore id a) acc) []
  (sortByScoreDesc scores).map (fun p => p.1)

/-! ## Decimal printing of JS numbers

`` `conclusion-${now.getTime()}` `` interpolates the millisecond instant
in decimal; modelled by `natToStr` (fuel-based so that it evaluates in
the kernel). -/

def natToStrAux : Nat → Nat → List Char
  | 0, _ => []
  | fuel + 1, n =>
      if n < 10 then [Nat.digitChar n]
      else natToStrAux fuel (n / 10) ++ [Nat.digitChar (n % 10)]

def natToStr (n : Nat) : String := String.mk (natToStrAux (n + 1) n)

-- A quick sanity check that the printer matches ordinary decimal notation.
example : natToStr 1047 = "1047" := rfl
example : natToStr 0 = "0" := rfl

/-! ### `natToStr` is injective (used for id-distinctness results) -/

theorem natToStrAux_congr :
    ∀ (n f g : Nat), n < f → n < g → natToStrAux f n = natToStrAux g n := by
  intro n
  induction n using Nat.strong_induction_on with
  | _ n ih =>
    intro f g hf hg
    match f, g with
    | f' + 1, g' + 1 =>
      simp only [natToStrAux]
      split
      · rfl
      · have hn10 : ¬ n < 10 := by assumption
        have hd : n / 10 < n := Nat.div_lt_self (by omega) (by omega)
        rw [ih (n / 10) hd f' g' (by omega) (by omega)]

theorem natToStr_data (n : Nat) :
    (natToStr n).data =
      if n < 10 then [Nat.digitChar n]
      else (natToStr (n / 10)).data ++ [Nat.digitChar (n % 10)] := by
  show natToStrAux (n + 1) n = _
  rw [show natToStrAux (n + 1) n =
      (if n < 10 then [Nat.digitChar n]
       else natToStrAux n (n / 10) ++ [Nat.digitChar (n % 10)]) from rfl]
  split
  · rfl
  · have hn10 : ¬ n < 10 := by assumption
    have hd : n / 10 < n := Nat.div_lt_self (by omega) (by omega)
    rw [natToStrAux_congr (n / 10) n (n / 10 + 1) (by omega) (by omega)]
    rfl

theorem natToStr_data_ne_nil (n : Nat) : (natToStr n).data ≠ [] := by
  rw [natToStr_data]
  split <;> simp

theorem digitChar_inj (a b : Nat) (ha : a < 10) (hb : b < 10)
    (h : Nat.digitChar a = Nat.digitChar b) : a = b := by
  interval_cases a <;> interval_cases b <;> first | rfl | (exfalso; revert h; decide)

theorem natToStr_inj : ∀ m n : Nat, natToStr m = natToStr n → m = n := by
  intro m
  induction m using Nat.strong_induction_on with
  | _ m ih =>
    intro n h
    have hd : (natToStr m).data = (natToStr n).data := congrArg String.data h
    rw [natToStr_data m, natToStr_data n] at hd
    by_cases hm : m < 10 <;> by_cases hn : n < 10
    · rw [if_pos hm, if_pos hn] at hd
      exact digitChar_inj m n hm hn (by injection hd)
    · rw [if_pos hm, if_neg hn] at hd
      exfalso
      have := congrArg List.length hd
      have := natToStr_data_ne_nil (n / 10)
      simp [List.length_append] at this ⊢
      cases he : (natToStr (n / 10)).data with
      | nil => exact absurd he (natToStr_data_ne_nil (n / 10))
      | cons c cs =>
        rw [he] at hd
        have := congrArg List.length hd
        simp [List.length_append] at this
    · rw [if_neg hm, if_pos hn] at hd
      exfalso
      cases he : (natToStr (m / 10)).data with
      | nil => exact absurd he (natToStr_data_ne_nil (m / 10))
      | cons c cs =>
        rw [he] at hd
        have := congrArg List.length hd
        simp [List.length_append] at this
    · rw [if_neg hm, if_neg hn] at hd
      have hrev := congrArg List.reverse hd
      simp only [List.reverse_append, List.reverse_cons, List.reverse_nil,
        List.nil_append, List.cons_append] at hrev
      have hdig : Nat.digitChar (m % 10) = Nat.digitChar (n % 10) := by
        injection hrev
      have htail : (natToStr (m / 10)).data.reverse = (natToStr (n / 10)).data.reverse := by
        injection hrev
      have hdata : (natToStr (m / 10)).data = (natToStr (n / 10)).data :=
        List.reverse_injective htail
      have hstr : natToStr (m / 10) = natToStr (n / 10) := by
        cases hm' : natToStr (m / 10) with
        | mk l1 =>
          cases hn' : natToStr (n / 10) with
          | mk l2 =>
            rw [hm', hn'] at hdata
            simp at hdata
            rw [hdata]
      have hdiv : m / 10 = n / 10 :=
        ih (m / 10) (Nat.div_lt_self (by omega) (by omega)) (n / 10) hstr
      have hmod : m % 10 = n % 10 :=
        digitChar_inj (m % 10) (n % 10) (Nat.mod_lt _ (by omega)) (Nat.mod_lt _ (by omega)) hdig
      omega

/-! ## Generic insertion-ordered association map (JS `Map` / object) -/

/-- First-match association lookup (`Map.get` / JS object indexing). -/
def alookup {α : Type} (key : String) : List (String × α) → Option α
  | [] => none
  | (k, v) :: rest => if k = key then some v else alookup key rest

/-- `Map.set`: overwrite in place when the key exists (keeping its
insertion position), append otherwise. -/
def mapSet {α : Type} (key : String) (v : α) : List (String × α) → List (String × α)
  | [] => [(key, v)]
  | (k, w) :: rest =>
      if k = key then (k, v) :: rest else (k, w) :: mapSet key v rest

/-! ## TemplateEngine

`ConclusionTemplate` (coconut-storage.ts lines 33-36), `registerTemplate`
(lines 156-159), `registerDefaultTemplates` (lines 129-149) and
`renderTemplate` (lines 167-183).
-/

structure ConclusionTemplate where
  name : String
  template : String
deriving Repr, DecidableEq

abbrev TemplateMap := List (String × ConclusionTemplate)

/-- Values a template data bag can carry: the bag built by
`generateCustomConclusion` holds strings and string arrays. -/
inductive TVal where
  | s (v : String)
  | arr (vs : List String)
deriving Repr, DecidableEq

/-- `\w` of the placeholder regex `\{(\w+)\}`. -/
def isWordCharJS (c : Char) : Bool := c.isAlphanum || c = '_'

/-- How one substituted placeholder is rendered
(the replacer callback at coconut-storage.ts lines 175-182):
missing key -> the placeholder verbatim; array -> `- item` lines
(empty string for an empty array); otherwise `toString()`. -/
def renderVal (key : String) (v : Option TVal) : String :=
  match v with
  | none => "\x7b" ++ key ++ "\x7d"
  | some (TVal.s v) => v
  | some (TVal.arr []) => ""
  | some (TVal.arr vs) => String.intercalate "\n" (vs.map (fun item => "- " ++ item))

/-- One left-to-right pass of `template.replace(/\{(\w+)\}/g, ...)` over
the template's characters. Fuel-based structural recursion (one unit of
fuel per consumed character is enough) so that it evaluates in the
kernel; a match requires `\x7b`, at least one word character, `\x7d`. -/
def substFuel (data : List (String × TVal)) : Nat → List Char → List Char
  | 0, cs => cs
  | _ + 1, [] => []
  | fuel + 1, c :: cs =>
      if c = '\x7b' then
        let key := cs.takeWhile isWordCharJS
        match cs.dropWhile isWordCharJS with
        | '\x7d' :: rest =>
            if key.isEmpty then c :: substFuel data fuel cs
            else (renderVal (String.mk key) (alookup (String.mk key) data)).data
                   ++ substFuel data fuel rest
        | _ => c :: substFuel data fuel cs
      else c :: substFuel data fuel cs

/-- Placeholder substitution over a whole template string. -/
def substTemplate (tmpl : String) (data : List (String × TVal)) : String :=
  String.mk (substFuel data tmpl.data.length tmpl.data)

/-- The single semantic `default` template body
(coconut-storage.ts lines 143-148). -/
def defaultTemplateBody : String :=
  "## \x7bemoji\x7d \x7bcategory\x7d | \x7bimpactLevel\x7d [ID:\x7bid\x7d]\n**Why:** \x7bwhyChange\x7d\n**What:** \x7bwhatChange\x7d\n**Files:** \x7baffectedFilesInline\x7d\n<!-- metadata -->\n"

/-- `registerTemplate(name, template)`. -/
def registerTemplate (name tmpl : String) (tmpls : TemplateMap) : TemplateMap :=
  mapSet name { name := name, template := tmpl } tmpls

/-- `registerDefaultTemplates()`: registers the single `default` template. -/
def registerDefaultTemplates (tmpls : TemplateMap) : TemplateMap :=
  registerTemplate "default" defaultTemplateBody tmpls

/-- The template registry right after the `CoConuT_Storage` constructor. -/
def initialTemplates : TemplateMap := registerDefaultTemplates []

/-- `renderTemplate(templateName, data)`: render the named template, or
fall back to the one named `default` when the name is unknown. `none`
models the unbounded self-recursion the source would enter if no
`default` template existed either (unreachable from the constructor). -/
def renderTemplate (tmpls : TemplateMap) (name : String) (data : List (String × TVal)) :
    Option String :=
  match alookup name tmpls with
  | some t => some (substTemplate t.template data)
  | none =>
      match alookup "default" tmpls with
      | some t => some (substTemplate t.template data)
      | none => none

/-! ## MetadataBuilder

`CoConuTStorageParams` (types.ts lines 140-167), `ConclusionMetadata`
(coconut-storage.ts lines 15-28) and `generateMetadata` (lines 363-400).
-/

structure CodeSnippet where
  before : String
  after : String
  file : String
deriving Repr, DecidableEq

/-- The optional-fields bag of a record call (`Partial<CoConuTStorageParams>`,
minus the three required fields that travel as separate arguments). -/
structure StorageParams where
  category : Option String := none
  subCategories : Option (List String) := none
  tags : Option (List String) := none
  impactLevel : Option String := none
  affectedFiles : Option (List String) := none
  codeSnippets : Option (List CodeSnippet) := none
  relatedConclusions : Option (List String) := none
  ticketReference : Option String := none
  businessContext : Option String := none
  technicalContext : Option String := none
  alternativesConsidered : Option (List String) := none
  testingPerformed : Option String := none
deriving Repr, DecidableEq

/-- The empty bag `{}` (every optional field absent). -/
def emptyParams : StorageParams := {}

/-- JS `maybeString || dflt`: an absent *or empty* string falls back
(the empty string is falsy in JS). -/
def jsOrStr (v : Option String) (dflt : String) : String :=
  match v with
  | none => dflt
  | some s => if s = "" then dflt else s

/-- `Date.toISOString()`; the calendar rendering is not reproduced (no
claim depends on its format), only the underlying instant is kept. -/
def toISOString (ms : Nat) : String := natToStr ms

structure ConclusionMetadata where
  id : String
  timestamp : String
  category : String
  subCategories : List String
  tags : List String
  impactLevel : String
  affectedFiles : List String
  relatedConclusions : List String
  ticketReference : String
  businessContext : String
  technicalContext : String
  thoughtNumbers : Option (List Nat) := none
deriving Repr, DecidableEq

/-- `generateMetadata(thoughts, params)` (coconut-storage.ts lines 363-400):
`now` is the instant `new Date()` observed at the top of the call.
Note the array defaults use plain `getD`: an empty JS array is truthy,
so `params?.tags || []` keeps a present-but-empty array, while
`params?.category || 'docs'` turns a present-but-empty string into the
default. -/
def generateMetadata (now : Nat) (thoughtNums : List Nat) (params : StorageParams) :
    ConclusionMetadata :=
  { id := "conclusion-" ++ natToStr now
    timestamp := toISOString now
    category := jsOrStr params.category "docs"
    subCategories := params.subCategories.getD []
    tags := params.tags.getD []
    impactLevel := jsOrStr params.impactLevel "medium"
    affectedFiles := params.affectedFiles.getD []
    relatedConclusions := params.relatedConclusions.getD []
    ticketReference := jsOrStr params.ticketReference ""
    businessContext := jsOrStr params.businessContext ""
    technicalContext := jsOrStr params.technicalContext ""
    thoughtNumbers := if thoughtNums.isEmpty then none else some thoughtNums }

/-! ## ConclusionRenderer

Formatters (coconut-storage.ts lines 402-481, 667-686), the emoji table
and `generateCustomConclusion` (lines 608-665).
-/

def formatAffectedFiles (files : List String) : String :=
  if files.isEmpty then "No affected files specified."
  else String.intercalate "\n" (files.map (fun file => "- `" ++ file ++ "`"))

def formatAffectedFilesInline (files : List String) : String :=
  if files.isEmpty then "No affected files specified."
  else String.intercalate ", " (files.map (fun file => "`" ++ file ++ "`"))

def formatAlternatives (alternatives : List String) : String :=
  if alternatives.isEmpty then "No alternatives considered were specified."
  else String.intercalate "\n"
    (alternatives.enum.map (fun p => natToStr (p.1 + 1) ++ ". " ++ p.2))

def formatRelatedConclusions (conclusions : List String) : String :=
  if conclusions.isEmpty then "No related conclusions."
  else String.intercalate "\n" (conclusions.map (fun ref => "- " ++ ref))

/-- `formatContext` (lines 670-686); empty strings are falsy in JS, so a
defaulted (empty) context field contributes nothing. -/
def formatContext (metadata : ConclusionMetadata) : String :=
  let context :=
    (if metadata.businessContext ≠ "" then
        "#### Business Context\n" ++ metadata.businessContext ++ "\n\n" else "")
      ++
    (if metadata.technicalContext ≠ "" then
        "#### Technical Context\n" ++ metadata.technicalContext ++ "\n\n" else "")
  if context = "" then "No additional context provided." else context

/-- The category -> emoji table (duplicated at lines 131-140 and 617-626
of the source). -/
def emojiMap : List (String × String) :=
  [("feature", "✨"), ("docs", "📝"), ("test", "🧪"), ("refactor", "♻️"),
   ("fix", "🐛"), ("chore", "🔧"), ("style", "💄"), ("perf", "⚡")]

/-- `emojiMap[category] || '✨'` (line 630): every table entry is a
non-empty (truthy) string, so only a missing key falls back. -/
def emojiOf (category : String) : String := (alookup category emojiMap).getD "✨"

/-- The template data bag (lines 633-644). The object literal spreads the
metadata and then overrides `affectedFiles` and `relatedConclusions`
with their formatted string forms; every key is listed here once with
its final value. `thoughtNumbers` never appears: the modelled call path
invokes `generateMetadata(undefined, params)`. -/
def templateData (metadata : ConclusionMetadata) (why what emoji : String)
    (params : StorageParams) : List (String × TVal) :=
  [("id", TVal.s metadata.id),
   ("timestamp", TVal.s metadata.timestamp),
   ("category", TVal.s metadata.category),
   ("subCategories", TVal.arr metadata.subCategories),
   ("tags", TVal.arr metadata.tags),
   ("impactLevel", TVal.s metadata.impactLevel),
   ("affectedFiles", TVal.s (formatAffectedFiles metadata.affectedFiles)),
   ("relatedConclusions", TVal.s (formatRelatedConclusions metadata.relatedConclusions)),
   ("ticketReference", TVal.s metadata.ticketReference),
   ("businessContext", TVal.s metadata.businessContext),
   ("technicalContext", TVal.s metadata.technicalContext),
   ("emoji", TVal.s emoji),
   ("whyChange", TVal.s why),
   ("whatChange", TVal.s what),
   ("context", TVal.s (formatContext metadata)),
   ("affectedFilesInline", TVal.s (formatAffectedFilesInline metadata.affectedFiles)),
   ("alternatives", TVal.s (formatAlternatives (params.alternativesConsidered.getD []))),
   ("testing", TVal.s (params.testingPerformed.getD ""))]

/-- JS `String.prototype.replace(searchString, replacement)`: replace the
first occurrence only (no occurrence leaves the string unchanged). -/
def replaceOnceChars (pat repl : List Char) : List Char → List Char
  | [] => []
  | c :: cs =>
      if pat.isPrefixOf (c :: cs) then repl ++ (c :: cs).drop pat.length
      else c :: replaceOnceChars pat repl cs

def strReplaceOnce (s pat repl : String) : String :=
  String.mk (replaceOnceChars pat.data repl.data s.data)

/-- JS `String.prototype.includes`. -/
def containsSubstrChars (pat : List Char) : List Char → Bool
  | [] => pat.isEmpty
  | c :: cs => pat.isPrefixOf (c :: cs) || containsSubstrChars pat cs

def strIncludes (s pat : String) : Bool := containsSubstrChars pat.data s.data

/-- `generateCustomConclusion(whyChange, whatChange, params)`
(lines 608-665): builds metadata (observing the instant `now`), renders
the `default` template and splices the metadata id into the marker
comment. The final branch models the catch-all fallback block; on the
`default` registry it is unreachable. -/
def generateCustomConclusion (tmpls : TemplateMap) (now : Nat) (why what : String)
    (params : StorageParams) : String :=
  let metadata := generateMetadata now [] params
  let category := jsOrStr params.category "feature"
  let emoji := emojiOf category
  let data := templateData metadata why what emoji params
  match renderTemplate tmpls "default" data with
  | some markdown =>
      strReplaceOnce markdown "<!-- metadata -->"
        ("<!-- metadata:" ++ metadata.id ++ " -->")
  | none => "## Conclusão\n**Por que:** " ++ why ++ "\n**O que:** " ++ what ++ "\n"

/-! ## AppendOnlyLog (`prepareAndSaveContent`, lines 530-599) -/

/-- The BMP (single-code-unit) members of the character class in
`/^## [✨📝🧪♻️🐛🔧💄⚡]/i` (line 551): ✨ U+2728, ♻ U+267B, the
variation selector U+FE0F contributed by ♻️, and ⚡ U+26A1. -/
def semanticEmojiChars : List Char :=
  ['✨', '♻', '️', '⚡']

/-- One scalar matching the class of the regex at line 551, which has no
`u` flag: the class ranges over UTF-16 code units, so each astral emoji
contributes its two lone surrogate halves. A scalar in the match
position therefore matches iff it is one of the BMP members, or its
UTF-16 lead surrogate is `\uD83D` (scalars U+1F400–U+1F7FF, covering
📝 🐛 🔧 💄) or `\uD83E` (scalars U+1F800–U+1FBFF, covering 🧪) — any
emoji with one of those lead surrogates matches, e.g. 😀. The class's
trail-surrogate members could only match lone surrogates, which
scalar-valued strings cannot contain. -/
def semanticHeaderChar (c : Char) : Bool :=
  semanticEmojiChars.contains c
    || (0x1F400 ≤ c.toNat && c.toNat ≤ 0x1F7FF)
    || (0x1F800 ≤ c.toNat && c.toNat ≤ 0x1FBFF)

/-- `hasSemanticHeader`: the text starts with `## ` followed by one
character matching the class. -/
def hasSemanticHeader (text : String) : Bool :=
  match text.data with
  | '#' :: '#' :: ' ' :: c :: _ => semanticHeaderChar c
  | _ => false

-- The no-`u`-flag surrogate effect: an emoji outside the eight listed
-- ones also passes the header test, exactly as in the source.
example : hasSemanticHeader "## 😀 note" = true := rfl
example : hasSemanticHeader "## A note" = false := rfl

/-- The header/timestamp prefixing step (lines 550-565): a new entry that
does not already carry a semantic header gets a synthetic
`## Entrada em <date> às <time>` header; `dateStr`/`timeStr` stand for
`toLocaleDateString()`/`toLocaleTimeString()` at the save instant. -/
def prepareProcessedText (isNewEntry : Bool) (text dateStr timeStr : String) : String :=
  if isNewEntry && !hasSemanticHeader text then
    "## Entrada em " ++ dateStr ++ " às " ++ timeStr ++ "\n\n" ++ text
  else text

/-- The fixed block separator (line 568). -/
def blockSeparator : String := "\n\n---\n\n"

/-- The conclusion-file state: `none` while the file does not exist.
`dirExists` tracks the `coconut-data` directory. -/
structure FsWorld where
  dirExists : Bool
  file : Option String
deriving Repr, DecidableEq

/-- Which primitive file-system operations fail when executed
(permission denied, disk full, ...). A failing primitive throws; the
source catches the exception. Primitives are modelled as atomic: a
failing one leaves the world unchanged. -/
structure IOPlan where
  mkdirFails : Bool := false
  readFails : Bool := false
  writeFails : Bool := false
deriving Repr, DecidableEq

/-- The all-successful plan. -/
def okPlan : IOPlan := {}

structure SavedFileInfo where
  filePath : String
  fileType : String
  timestamp : Nat
deriving Repr, DecidableEq

/-- The per-instance mutable state of `CoConuT_Storage`. -/
structure StorageState where
  templates : TemplateMap
  searchIndex : SearchIndex

/-- `prepareAndSaveContent(text, projectPath, isNewEntry)` (lines
530-599). `saveNow` is the save-time instant: it feeds the fresh
`conclusion-${Date.now()}` index id and the returned timestamp (the two
`Date.now()` calls of the same save are modelled as one instant).
Returns the result (`none` on any caught error), the updated storage
state and the updated world. -/
def prepareAndSaveContent (st : StorageState) (plan : IOPlan) (text projectPath : String)
    (isNewEntry : Bool) (saveNow : Nat) (dateStr timeStr : String) (w : FsWorld) :
    Option SavedFileInfo × StorageState × FsWorld :=
  if projectPath = "" then (none, st, w)
  else
    let conclusionPath := projectPath ++ "/coconut-data/conclusion.md"
    -- fs.mkdirSync (only when the directory is absent)
    if !w.dirExists && plan.mkdirFails then (none, st, w)
    else
      let w1 : FsWorld := { w with dirExists := true }
      let processedText := prepareProcessedText isNewEntry text dateStr timeStr
      -- fs.existsSync(conclusionPath) decides between append and create
      match w1.file with
      | some existingContent =>
          if plan.readFails then (none, st, w1)
          else
            let finalContent := existingContent ++ blockSeparator ++ processedText
            if plan.writeFails then (none, st, w1)
            else
              let w2 : FsWorld := { w1 with file := some finalContent }
              let conclusionId := "conclusion-" ++ natToStr saveNow
              let st2 : StorageState :=
                if strIncludes text "## Conclusão da Cadeia de Pensamentos"
                    || hasSemanticHeader text then
                  { st with searchIndex := indexContent conclusionId text st.searchIndex }
                else st
              (some { filePath := conclusionPath, fileType := "conclusion",
                      timestamp := saveNow }, st2, w2)
      | none =>
          let finalContent := processedText
          if plan.writeFails then (none, st, w1)
          else
            let w2 : FsWorld := { w1 with file := some finalContent }
            let conclusionId := "conclusion-" ++ natToStr saveNow
            let st2 : StorageState :=
              if strIncludes text "## Conclusão da Cadeia de Pensamentos"
                  || hasSemanticHeader text then
                { st with searchIndex := indexContent conclusionId text st.searchIndex }
              else st
            (some { filePath := conclusionPath, fileType := "conclusion",
                    timestamp := saveNow }, st2, w2)

/-- `saveConclusion(conclusion, projectPath)` (lines 488-501): guards the
path and delegates; every caught error surfaces as `none`. -/
def saveConclusion (st : StorageState) (plan : IOPlan) (conclusion projectPath : String)
    (saveNow : Nat) (dateStr timeStr : String) (w : FsWorld) :
    Option SavedFileInfo × StorageState × FsWorld :=
  if projectPath = "" then (none, st, w)
  else prepareAndSaveContent st plan conclusion projectPath true saveNow dateStr timeStr w

/-- `processConclusion(thoughts, projectPath, whyChange, whatChange, params)`
(lines 255-317). The `CoConuTService` caller always passes an empty
thought list (`temporaryThoughts` is never populated), so no thought
files are saved; the conclusion is rendered at instant `tMeta` and saved
at instant `tSave`. An empty project path makes the method throw
(`Except.error`); a failed save only drops the conclusion entry from the
returned list. -/
def processConclusion (st : StorageState) (plan : IOPlan) (projectPath why what : String)
    (params : StorageParams) (tMeta tSave : Nat) (dateStr timeStr : String) (w : FsWorld) :
    Except String (List SavedFileInfo) × StorageState × FsWorld :=
  if projectPath = "" then
    (Except.error "Failed to process conclusion: No path provided to save files", st, w)
  else
    let conclusion := generateCustomConclusion st.templates tMeta why what params
    let r := saveConclusion st plan conclusion projectPath tSave dateStr timeStr w
    (Except.ok (match r.1 with | some i => [i] | none => []), r.2.1, r.2.2)

/-- The state of a freshly constructed `CoConuT_Storage` (constructor,
lines 88-100): the default template registered, the search index empty. -/
def mkCoConuT_Storage : StorageState :=
  { templates := initialTemplates, searchIndex := [] }

/-- `CoConuTService.saveWithStorage` (coconut.ts lines 46-79): constructs
a brand-new `CoConuT_Storage` instance on every invocation and runs
`processConclusion` on it. The final storage state (normally discarded
by the service) is returned so the index can be observed. -/
def saveWithStorage (plan : IOPlan) (projectPath why what : String)
    (params : StorageParams) (tMeta tSave : Nat) (dateStr timeStr : String) (w : FsWorld) :
    Except String (List SavedFileInfo) × StorageState × FsWorld :=
  processConclusion mkCoConuT_Storage plan projectPath why what params tMeta tSave
    dateStr timeStr w

/-! ## Sequences of record calls -/

/-- The inputs of one tool-level record call (its free-form fields and
the instants/locale strings observed during the call). -/
structure RecordCall where
  why : String
  what : String
  params : StorageParams
  tMeta : Nat
  tSave : Nat
  dateStr : String
  timeStr : String

/-- The markdown block the call renders (every `saveWithStorage` call
renders against the fresh store's `default`-only registry). -/
def renderedBlock (c : RecordCall) : String :=
  generateCustomConclusion initialTemplates c.tMeta c.why c.what c.params

/-- The file-system effect of one successful record call. -/
def recordStep (projectPath : String) (c : RecordCall) (w : FsWorld) : FsWorld :=
  (saveWithStorage okPlan projectPath c.why c.what c.params c.tMeta c.tSave
    c.dateStr c.timeStr w).2.2

/-- Run a sequence of record calls against one project path. -/
def runRecords (projectPath : String) (calls : List RecordCall) (w : FsWorld) : FsWorld :=
  calls.foldl (fun w c => recordStep projectPath c w) w

/-- Blocks joined by the fixed separator, in order. -/
def sepJoin : List String → String
  | [] => ""
  | [b] => b
  | b :: bs => b ++ blockSeparator ++ sepJoin bs

/-! ## Supporting lemmas -/

theorem emojiOf_mem (c : String) :
    emojiOf c ∈ (["✨", "📝", "🧪", "♻️", "🐛", "🔧", "💄", "⚡"] : List String) := by
  unfold emojiOf emojiMap
  simp only [alookup]
  split_ifs <;> simp

set_option maxRecDepth 10000 in
theorem hasSemanticHeader_render (now : Nat) (why what : String) (params : StorageParams) :
    hasSemanticHeader (generateCustomConclusion initialTemplates now why what params) = true := by
  have h := emojiOf_mem (jsOrStr params.category "feature")
  simp only [List.mem_cons, List.not_mem_nil, or_false] at h
  simp only [generateCustomConclusion]
  rcases h with h | h | h | h | h | h | h | h <;> rw [h] <;> rfl

theorem prepareAndSaveContent_ok (st : StorageState) (text pp : String) (tSave : Nat)
    (d tm : String) (w : FsWorld) (hpp : pp ≠ "") :
    prepareAndSaveContent st okPlan text pp true tSave d tm w =
      (some { filePath := pp ++ "/coconut-data/conclusion.md", fileType := "conclusion",
              timestamp := tSave },
       (if strIncludes text "## Conclusão da Cadeia de Pensamentos"
            || hasSemanticHeader text then
          { st with searchIndex :=
              indexContent ("conclusion-" ++ natToStr tSave) text st.searchIndex }
        else st),
       { dirExists := true,
         file := some (match w.file with
           | some e => e ++ blockSeparator ++ prepareProcessedText true text d tm
           | none => prepareProcessedText true text d tm) }) := by
  unfold prepareAndSaveContent
  rw [if_neg hpp]
  cases hw : w.file <;> simp [okPlan, hw]

theorem recordStep_eq (pp : String) (hpp : pp ≠ "") (c : RecordCall) (w : FsWorld) :
    recordStep pp c w =
      { dirExists := true,
        file := some (match w.file with
          | some e => e ++ blockSeparator ++ renderedBlock c
          | none => renderedBlock c) } := by
  have hsem : hasSemanticHeader (renderedBlock c) = true :=
    hasSemanticHeader_render c.tMeta c.why c.what c.params
  have hpt : prepareProcessedText true (renderedBlock c) c.dateStr c.timeStr
      = renderedBlock c := by
    unfold prepareProcessedText
    rw [hsem]
    simp
  unfold recordStep saveWithStorage processConclusion saveConclusion
  simp only [if_neg hpp]
  rw [show mkCoConuT_Storage.templates = initialTemplates from rfl]
  rw [prepareAndSaveContent_ok _ _ _ _ _ _ _ hpp]
  simp only [renderedBlock] at hpt ⊢
  rw [hpt]

theorem foldl_sepJoin (bs : List String) : ∀ b : String,
    bs.foldl (fun acc x => acc ++ blockSeparator ++ x) b = sepJoin (b :: bs) := by
  induction bs with
  | nil => intro b; rfl
  | cons b' bs ih =>
    intro b
    rw [List.foldl_cons, ih]
    cases bs with
    | nil => rfl
    | cons b'' bs' =>
      show b ++ blockSeparator ++ b' ++ blockSeparator ++ sepJoin (b'' :: bs')
          = b ++ blockSeparator ++ (b' ++ blockSeparator ++ sepJoin (b'' :: bs'))
      simp [String.append_assoc]

theorem runRecords_from_some (pp : String) (hpp : pp ≠ "") :
    ∀ (calls : List RecordCall) (w : FsWorld) (e : String), w.file = some e →
      (runRecords pp calls w).file =
        some (calls.foldl (fun acc c => acc ++ blockSeparator ++ renderedBlock c) e) := by
  intro calls
  induction calls with
  | nil =>
    intro w e hw
    simpa [runRecords] using hw
  | cons c cs ih =>
    intro w e hw
    have hstep : recordStep pp c w =
        { dirExists := true, file := some (e ++ blockSeparator ++ renderedBlock c) } := by
      rw [recordStep_eq pp hpp c w, hw]
    unfold runRecords
    rw [List.foldl_cons, List.foldl_cons]
    have h2 := ih (recordStep pp c w) (e ++ blockSeparator ++ renderedBlock c)
      (by rw [hstep])
    unfold runRecords at h2
    exact h2

theorem setAdd_idem (id : String) (s : List String) :
    setAdd id (setAdd id s) = setAdd id s := by
  by_cases h : id ∈ s
  · simp [setAdd, h]
  · simp [setAdd, h]

theorem lookupIdx_addWord (v w id : String) (idx : SearchIndex) :
    lookupIdx v (addWord w id idx) =
      if w = v then setAdd id (lookupIdx v idx) else lookupIdx v idx := by
  induction idx with
  | nil =>
    by_cases h : w = v <;> simp [addWord, lookupIdx, setAdd, h]
  | cons kv rest ih =>
    obtain ⟨k, s⟩ := kv
    simp only [addWord]
    by_cases hkw : k = w
    · subst hkw
      simp only [if_pos rfl]
      by_cases hv : k = v
      · subst hv
        simp [lookupIdx]
      · simp [lookupIdx, hv]
    · simp only [if_neg hkw]
      by_cases hkv : k = v
      · subst hkv
        have hwv : w ≠ k := fun h => hkw h.symm
        simp [lookupIdx, hwv]
      · simp [lookupIdx, hkv, ih]

theorem lookupIdx_foldl_addWord (ws : List String) (id : String) :
    ∀ (idx : SearchIndex) (v : String),
      lookupIdx v (ws.foldl (fun ix w => addWord w id ix) idx) =
        if v ∈ ws then setAdd id (lookupIdx v idx) else lookupIdx v idx := by
  induction ws with
  | nil => intro idx v; simp
  | cons w ws ih =>
    intro idx v
    rw [List.foldl_cons, ih, lookupIdx_addWord]
    by_cases hwv : w = v
    · subst hwv
      by_cases hm : w ∈ ws
      · simp [hm, setAdd_idem]
      · simp [hm]
    · by_cases hm : v ∈ ws
      · simp [hwv, hm, List.mem_cons]
      · have hvw : ¬ v = w := fun h => hwv h.symm
        simp [hwv, hvw, hm, List.mem_cons]

theorem lookupIdx_indexContent (v id content : String) (idx : SearchIndex) :
    lookupIdx v (indexContent id content idx) =
      if v ∈ tokenize content then setAdd id (lookupIdx v idx) else lookupIdx v idx :=
  lookupIdx_foldl_addWord (tokenize content) id idx v

theorem mem_setAdd (x id : String) (s : List String) (h : x ∈ setAdd id s) :
    x ∈ s ∨ x = id := by
  by_cases hm : id ∈ s
  · simp only [setAdd, if_pos hm] at h
    exact Or.inl h
  · simp only [setAdd, if_neg hm, List.mem_append, List.mem_singleton] at h
    exact h

theorem addWord_ids (w id : String) (P : String → Prop) (hid : P id) :
    ∀ (idx : SearchIndex), (∀ e ∈ idx, ∀ x ∈ e.2, P x) →
      ∀ e ∈ addWord w id idx, ∀ x ∈ e.2, P x := by
  intro idx
  induction idx with
  | nil =>
    intro _ e he x hx
    simp only [addWord, List.mem_singleton] at he
    subst he
    simp only [List.mem_singleton] at hx
    subst hx
    exact hid
  | cons kv rest ih =>
    obtain ⟨k, s⟩ := kv
    intro hP e he x hx
    simp only [addWord] at he
    by_cases hkw : k = w
    · rw [if_pos hkw] at he
      rcases List.mem_cons.mp he with he | he
      · subst he
        rcases mem_setAdd x id s hx with h | h
        · exact hP (k, s) (List.mem_cons_self _ _) x h
        · exact h ▸ hid
      · exact hP e (List.mem_cons_of_mem _ he) x hx
    · rw [if_neg hkw] at he
      rcases List.mem_cons.mp he with he | he
      · subst he
        exact hP (k, s) (List.mem_cons_self _ _) x hx
      · exact ih (fun e' he' => hP e' (List.mem_cons_of_mem _ he')) e he x hx

theorem foldl_addWord_ids (id : String) (P : String → Prop) (hid : P id) :
    ∀ (ws : List String) (idx : SearchIndex), (∀ e ∈ idx, ∀ x ∈ e.2, P x) →
      ∀ e ∈ ws.foldl (fun ix w => addWord w id ix) idx, ∀ x ∈ e.2, P x := by
  intro ws
  induction ws with
  | nil => intro idx hP; simpa using hP
  | cons w ws ih =>
    intro idx hP
    rw [List.foldl_cons]
    exact ih (addWord w id idx) (addWord_ids w id P hid idx hP)

theorem indexContent_ids (id content : String) (idx : SearchIndex) (P : String → Prop)
    (hid : P id) (hidx : ∀ e ∈ idx, ∀ x ∈ e.2, P x) :
    ∀ e ∈ indexContent id content idx, ∀ x ∈ e.2, P x :=
  foldl_addWord_ids id P hid (tokenize content) idx hidx

/-! ## Claim C1 -/

/-- Claim C1, counterexample: with a first conclusion containing
"authentication" exactly once and a second containing it exactly twice,
`searchConclusions("authentication")` returns the FIRST id before the
second (both score 1: the per-document score counts matched query terms,
not occurrences inside the document), so the claimed order is wrong. -/
theorem c1_counterexample :
    (tokenize "authentication basics here").count "authentication" = 1 ∧
    (tokenize "authentication again authentication indeed").count "authentication" = 2 ∧
    searchConclusions "authentication"
      (indexContent "conclusion-2" "authentication again authentication indeed"
        (indexContent "conclusion-1" "authentication basics here" [])) =
      ["conclusion-1", "conclusion-2"] ∧
    searchConclusions "authentication"
      (indexContent "conclusion-2" "authentication again authentication indeed"
        (indexContent "conclusion-1" "authentication basics here" [])) ≠
      ["conclusion-2", "conclusion-1"] := by
  refine ⟨by decide, by decide, by decide, by decide⟩

/-- Claim C1 (amended): for every store in which two conclusions have been
recorded whose texts both contain the term "authentication" (however many
times), `searchConclusions("authentication")` scores both 1 — the score
counts matched query terms per document, not occurrences — and returns
the FIRST-indexed conclusion's id before the second's. -/
theorem c1_search_ties_first_indexed (t1 t2 id1 id2 : String)
    (h1 : "authentication" ∈ tokenize t1)
    (h2 : "authentication" ∈ tokenize t2)
    (hid : id1 ≠ id2) :
    searchConclusions "authentication"
      (indexContent id2 t2 (indexContent id1 t1 [])) = [id1, id2] := by
  have htok : tokenize "authentication" = ["authentication"] := by decide
  have hlook : lookupIdx "authentication" (indexContent id2 t2 (indexContent id1 t1 []))
      = [id1, id2] := by
    rw [lookupIdx_indexContent, if_pos h2, lookupIdx_indexContent, if_pos h1]
    simp [lookupIdx, setAdd, Ne.symm hid]
  unfold searchConclusions
  rw [htok]
  simp only [List.foldl_cons, List.foldl_nil]
  rw [hlook]
  simp [bumpScore, sortByScoreDesc, insertByScore, hid]

/-- Witness for the amended C1 at concrete one-occurrence and
two-occurrence documents. -/
theorem c1_search_ties_first_indexed_witness :
    searchConclusions "authentication"
      (indexContent "conclusion-b" "authentication again authentication indeed"
        (indexContent "conclusion-a" "authentication basics here" [])) =
      ["conclusion-a", "conclusion-b"] :=
  c1_search_ties_first_indexed _ _ _ _ (by decide) (by decide) (by decide)

/-! ## Claim C6 -/

/-- Claim C6, counterexample: with no optional fields the generated
metadata's category is the default `"docs"` (coconut-storage.ts line
369), not `"feature"`. -/
theorem c6_counterexample :
    (generateMetadata 0 [] emptyParams).category = "docs" ∧
    (generateMetadata 0 [] emptyParams).category ≠ "feature" := by
  refine ⟨rfl, by decide⟩

/-- Claim C6 (amended): a record call with no optional fields produces
metadata with category equal to the default `"docs"` (the rendered emoji
nevertheless falls back to the `"feature"` emoji), impactLevel
`"medium"`, empty subCategories, tags, affectedFiles and
relatedConclusions, and a non-empty id. -/
theorem c6_default_fill (now : Nat) :
    (generateMetadata now [] emptyParams).category = "docs" ∧
    (generateMetadata now [] emptyParams).impactLevel = "medium" ∧
    (generateMetadata now [] emptyParams).subCategories = [] ∧
    (generateMetadata now [] emptyParams).tags = [] ∧
    (generateMetadata now [] emptyParams).affectedFiles = [] ∧
    (generateMetadata now [] emptyParams).relatedConclusions = [] ∧
    (generateMetadata now [] emptyParams).id ≠ "" := by
  refine ⟨rfl, rfl, rfl, rfl, rfl, rfl, fun h => ?_⟩
  have h2 : "conclusion-".data ++ (natToStr now).data = [] := by
    have h1 : ("conclusion-" ++ natToStr now).data = "".data := congrArg String.data h
    rwa [String.data_append] at h1
  exact absurd (List.append_eq_nil.mp h2).1 (by decide)

/-- Witness for the amended C6 at a concrete creation instant. -/
theorem c6_default_fill_witness :
    (generateMetadata 7 [] emptyParams).category = "docs" ∧
    (generateMetadata 7 [] emptyParams).impactLevel = "medium" ∧
    (generateMetadata 7 [] emptyParams).subCategories = [] ∧
    (generateMetadata 7 [] emptyParams).tags = [] ∧
    (generateMetadata 7 [] emptyParams).affectedFiles = [] ∧
    (generateMetadata 7 [] emptyParams).relatedConclusions = [] ∧
    (generateMetadata 7 [] emptyParams).id ≠ "" :=
  c6_default_fill 7

/-! ## Claim C10 -/

/-- Claim C10, counterexample: two conclusions created within the same
millisecond receive the SAME id even when their contents differ, so ids
are not unique across the index's lifetime. -/
theorem c10_counterexample :
    (generateMetadata 5 [] emptyParams).id =
      (generateMetadata 5 [] { tags := some ["different"] }).id ∧
    emptyParams ≠ ({ tags := some ["different"] } : StorageParams) := by
  refine ⟨rfl, by decide⟩

/-- Claim C10 (amended): each metadata id is `"conclusion-"` followed by
the creation instant in milliseconds; two conclusions receive distinct
ids exactly when their creation instants differ — uniqueness holds
across different instants but fails for two records within the same
millisecond. -/
theorem c10_id_uniqueness (t1 t2 : Nat) (p1 p2 : StorageParams) (n1 n2 : List Nat) :
    (generateMetadata t1 n1 p1).id = "conclusion-" ++ natToStr t1 ∧
    (t1 ≠ t2 → (generateMetadata t1 n1 p1).id ≠ (generateMetadata t2 n2 p2).id) := by
  refine ⟨rfl, fun hne heq => hne ?_⟩
  have h2 := congrArg String.data heq
  rw [show (generateMetadata t1 n1 p1).id = "conclusion-" ++ natToStr t1 from rfl,
      show (generateMetadata t2 n2 p2).id = "conclusion-" ++ natToStr t2 from rfl,
      String.data_append, String.data_append] at h2
  have h3 := List.append_cancel_left h2
  exact natToStr_inj t1 t2 (String.ext h3)

/-- Witness for the amended C10 at distinct instants. -/
theorem c10_id_uniqueness_witness :
    (generateMetadata 1 [] emptyParams).id = "conclusion-" ++ natToStr 1 ∧
    (generateMetadata 1 [] emptyParams).id ≠ (generateMetadata 2 [] emptyParams).id :=
  ⟨(c10_id_uniqueness 1 2 emptyParams emptyParams [] []).1,
   (c10_id_uniqueness 1 2 emptyParams emptyParams [] []).2 (by decide)⟩

/-! ## Claim C4 -/

/-- Claim C4: starting from no conclusion file, after any non-empty
sequence of record calls against the same project path the file content
equals the individually rendered blocks joined by the fixed separator
`"\n\n---\n\n"` in call order; moreover no successful write removes
previously present bytes — the old content is a prefix of the new. -/
theorem c4_append_preserves_history (pp : String) (hpp : pp ≠ "") (c : RecordCall)
    (cs : List RecordCall) (d0 : Bool) :
    (runRecords pp (c :: cs) { dirExists := d0, file := none }).file =
      some (sepJoin ((c :: cs).map renderedBlock)) ∧
    (∀ (c' : RecordCall) (w : FsWorld) (e : String), w.file = some e →
      ∃ r, (recordStep pp c' w).file = some (e ++ r)) := by
  constructor
  · have h1 : recordStep pp c { dirExists := d0, file := none } =
        { dirExists := true, file := some (renderedBlock c) } :=
      recordStep_eq pp hpp c _
    unfold runRecords
    rw [List.foldl_cons]
    have h2 := runRecords_from_some pp hpp cs
      (recordStep pp c { dirExists := d0, file := none }) (renderedBlock c) (by rw [h1])
    unfold runRecords at h2
    rw [h2, ← List.foldl_map, foldl_sepJoin, List.map_cons]
  · intro c' w e hw
    refine ⟨blockSeparator ++ renderedBlock c', ?_⟩
    rw [recordStep_eq pp hpp c' w, hw]
    show some (e ++ blockSeparator ++ renderedBlock c') =
      some (e ++ (blockSeparator ++ renderedBlock c'))
    rw [String.append_assoc]

/-- Witness for C4: two concrete record calls, and one concrete append
step showing prefix preservation. -/
theorem c4_append_preserves_history_witness :
    ((runRecords "/p"
        [⟨"w1", "x1", emptyParams, 0, 1, "d", "t"⟩,
         ⟨"w2", "x2", emptyParams, 2, 3, "d", "t"⟩]
        { dirExists := false, file := none }).file =
      some (sepJoin
        ([⟨"w1", "x1", emptyParams, 0, 1, "d", "t"⟩,
          ⟨"w2", "x2", emptyParams, 2, 3, "d", "t"⟩].map renderedBlock))) ∧
    (∃ r, (recordStep "/p" ⟨"w1", "x1", emptyParams, 0, 1, "d", "t"⟩
        { dirExists := true, file := some "old content" }).file =
      some ("old content" ++ r)) := by
  have h := c4_append_preserves_history "/p" (by decide)
    ⟨"w1", "x1", emptyParams, 0, 1, "d", "t"⟩
    [⟨"w2", "x2", emptyParams, 2, 3, "d", "t"⟩] false
  exact ⟨h.1, h.2 _ _ "old content" rfl⟩

/-! ## Claim C5 -/

/-- Claim C5, counterexample: the source branches on file *existence*,
not on content emptiness — appending a semantic block to an existing but
zero-length conclusion file yields `separator ++ block`, i.e. WITH a
leading separator, not the block alone. -/
theorem c5_counterexample :
    (prepareAndSaveContent mkCoConuT_Storage okPlan "## ✨ ok" "/p" true 0 "d" "t"
      { dirExists := true, file := some "" }).2.2.file =
      some ("\n\n---\n\n## ✨ ok") ∧
    ("\n\n---\n\n## ✨ ok" : String) ≠ "## ✨ ok" := by
  refine ⟨by decide, by decide⟩

/-- Claim C5 (amended): the merged content equals the block alone when
the conclusion file does not exist, and
`existingContent ++ "\n\n---\n\n" ++ block` whenever the file exists —
including when its content is the empty string, in which case the result
is the separator followed by the block. -/
theorem c5_merge_content (st : StorageState) (text pp : String) (tSave : Nat)
    (d tm : String) (e : String) (d0 d1 : Bool) (hpp : pp ≠ "")
    (hsem : hasSemanticHeader text = true) :
    (prepareAndSaveContent st okPlan text pp true tSave d tm
        { dirExists := d0, file := some e }).2.2.file =
      some (e ++ blockSeparator ++ text) ∧
    (prepareAndSaveContent st okPlan text pp true tSave d tm
        { dirExists := d1, file := none }).2.2.file = some text := by
  have hpt : prepareProcessedText true text d tm = text := by
    unfold prepareProcessedText
    rw [hsem]
    simp
  constructor
  · rw [prepareAndSaveContent_ok _ _ _ _ _ _ _ hpp]
    simp [hpt]
  · rw [prepareAndSaveContent_ok _ _ _ _ _ _ _ hpp]
    simp [hpt]

/-- Witness for the amended C5 at a concrete semantic block, an existing
empty file and a missing file. -/
theorem c5_merge_content_witness :
    (prepareAndSaveContent mkCoConuT_Storage okPlan "## ✨ ok" "/p" true 0 "d" "t"
        { dirExists := true, file := some "" }).2.2.file =
      some ("" ++ blockSeparator ++ "## ✨ ok") ∧
    (prepareAndSaveContent mkCoConuT_Storage okPlan "## ✨ ok" "/p" true 0 "d" "t"
        { dirExists := false, file := none }).2.2.file = some "## ✨ ok" :=
  c5_merge_content mkCoConuT_Storage "## ✨ ok" "/p" 0 "d" "t" "" true false
    (by decide) (by decide)

/-! ## Claim C9 -/

/-- Claim C9, counterexample: the synthetic header prepended to a block
without the semantic header reads `## Entrada em <date> às <time>`
(Portuguese, coconut-storage.ts line 559), not `## Entry at <date> <time>`. -/
theorem c9_counterexample :
    prepareProcessedText true "plain note" "1/1/2020" "10:00:00" =
      "## Entrada em 1/1/2020 às 10:00:00\n\nplain note" ∧
    ("## Entry at".data.isPrefixOf
      (prepareProcessedText true "plain note" "1/1/2020" "10:00:00").data) = false := by
  refine ⟨by decide, by decide⟩

/-- Claim C9 (amended): every new-entry block lacking the structural
semantic header gets the synthetic header line
`## Entrada em <date> às <time>` prepended (followed by a blank line)
before merging; every block already carrying the semantic header — as
rendered conclusions do — is passed through unchanged. -/
theorem c9_header_prepend (text d tm : String) :
    (hasSemanticHeader text = false →
      prepareProcessedText true text d tm =
        "## Entrada em " ++ d ++ " às " ++ tm ++ "\n\n" ++ text) ∧
    (hasSemanticHeader text = true →
      prepareProcessedText true text d tm = text) := by
  constructor <;> intro h <;> unfold prepareProcessedText <;> rw [h] <;> simp

/-- Witness for the amended C9 on one headerless and one semantic block. -/
theorem c9_header_prepend_witness :
    (prepareProcessedText true "plain note" "1/1/2020" "10:00:00" =
      "## Entrada em " ++ "1/1/2020" ++ " às " ++ "10:00:00" ++ "\n\n" ++ "plain note") ∧
    (prepareProcessedText true "## ✨ ok" "1/1/2020" "10:00:00" = "## ✨ ok") :=
  ⟨(c9_header_prepend "plain note" "1/1/2020" "10:00:00").1 (by decide),
   (c9_header_prepend "## ✨ ok" "1/1/2020" "10:00:00").2 (by decide)⟩

/-! ## Claim C8 -/

/-- Claim C8: whenever a primitive file-system operation that the append
actually reaches fails — directory creation (reached when the directory
is absent), the read of an existing file (reached when no earlier
operation failed), or the final write (likewise) — the operation returns
`none` instead of throwing and the conclusion file's previous content is
left byte-for-byte unchanged. -/
theorem c8_io_failure_null_and_untouched (st : StorageState) (plan : IOPlan)
    (text pp : String) (tSave : Nat) (d tm : String) (w : FsWorld) :
    ((w.dirExists = false ∧ plan.mkdirFails = true) →
      (prepareAndSaveContent st plan text pp true tSave d tm w).1 = none ∧
      (prepareAndSaveContent st plan text pp true tSave d tm w).2.2.file = w.file) ∧
    ((w.dirExists = true ∨ plan.mkdirFails = false) → w.file.isSome = true →
      plan.readFails = true →
      (prepareAndSaveContent st plan text pp true tSave d tm w).1 = none ∧
      (prepareAndSaveContent st plan text pp true tSave d tm w).2.2.file = w.file) ∧
    ((w.dirExists = true ∨ plan.mkdirFails = false) →
      (w.file.isSome = false ∨ plan.readFails = false) → plan.writeFails = true →
      (prepareAndSaveContent st plan text pp true tSave d tm w).1 = none ∧
      (prepareAndSaveContent st plan text pp true tSave d tm w).2.2.file = w.file) := by
  obtain ⟨de, fl⟩ := w
  obtain ⟨mf, rf, wf⟩ := plan
  by_cases hpp : pp = "" <;> cases de <;> cases mf <;> cases rf <;> cases wf <;>
    cases fl <;> simp [prepareAndSaveContent, hpp]

/-- Witness for C8: a concrete failing mkdir, a failing read and a
failing write each leave the file untouched and yield a `none` result. -/
theorem c8_io_failure_witness :
    ((prepareAndSaveContent mkCoConuT_Storage { mkdirFails := true } "new text" "/p" true 0
      "d" "t" { dirExists := false, file := none }).1 = none ∧
     (prepareAndSaveContent mkCoConuT_Storage { mkdirFails := true } "new text" "/p" true 0
      "d" "t" { dirExists := false, file := none }).2.2.file = none) ∧
    ((prepareAndSaveContent mkCoConuT_Storage { readFails := true } "new text" "/p" true 0
      "d" "t" { dirExists := true, file := some "old" }).1 = none ∧
     (prepareAndSaveContent mkCoConuT_Storage { readFails := true } "new text" "/p" true 0
      "d" "t" { dirExists := true, file := some "old" }).2.2.file = some "old") ∧
    ((prepareAndSaveContent mkCoConuT_Storage { writeFails := true } "new text" "/p" true 0
      "d" "t" { dirExists := true, file := some "old" }).1 = none ∧
     (prepareAndSaveContent mkCoConuT_Storage { writeFails := true } "new text" "/p" true 0
      "d" "t" { dirExists := true, file := some "old" }).2.2.file = some "old") := by
  refine ⟨?_, ?_, ?_⟩
  · exact (c8_io_failure_null_and_untouched mkCoConuT_Storage { mkdirFails := true }
      "new text" "/p" 0 "d" "t" { dirExists := false, file := none }).1 ⟨rfl, rfl⟩
  · exact (c8_io_failure_null_and_untouched mkCoConuT_Storage { readFails := true }
      "new text" "/p" 0 "d" "t" { dirExists := true, file := some "old" }).2.1
      (Or.inl rfl) rfl rfl
  · exact (c8_io_failure_null_and_untouched mkCoConuT_Storage { writeFails := true }
      "new text" "/p" 0 "d" "t" { dirExists := true, file := some "old" }).2.2
      (Or.inl rfl) (Or.inr rfl) rfl

/-! ## Claim C7 -/

theorem alookup_mapSet {α : Type} (key k : String) (v : α) :
    ∀ m : List (String × α), alookup key (mapSet k v m) =
      if k = key then some v else alookup key m := by
  intro m
  induction m with
  | nil => by_cases h : k = key <;> simp [mapSet, alookup, h]
  | cons kv rest ih =>
    obtain ⟨k', v'⟩ := kv
    simp only [mapSet]
    by_cases h1 : k' = k
    · rw [if_pos h1]
      subst h1
      by_cases h2 : k' = key
      · subst h2
        simp [alookup]
      · simp [alookup, h2]
    · rw [if_neg h1]
      by_cases h2 : k' = key
      · subst h2
        have hk : ¬ k = k' := fun h => h1 h.symm
        simp [alookup, hk]
      · simp [alookup, h2, ih]

/-- The `default` template, once registered by the constructor, survives
every later `registerTemplate` call. -/
theorem default_present (ops : List (String × String)) :
    ∀ tm : TemplateMap, (alookup "default" tm).isSome = true →
      (alookup "default"
        (ops.foldl (fun m p => registerTemplate p.1 p.2 m) tm)).isSome = true := by
  induction ops with
  | nil => intro tm h; simpa using h
  | cons op ops ih =>
    intro tm h
    rw [List.foldl_cons]
    apply ih
    rw [registerTemplate, alookup_mapSet]
    by_cases hk : op.1 = "default"
    · simp [hk]
    · simp [hk, h]

/-- Claim C7: in every registry reachable from store construction (the
constructor registers `default`; `registerTemplate` is the only
mutator), a template named `default` is present, and rendering with an
unregistered template name returns exactly the `default` rendering and
never fails. -/
theorem c7_template_fallback (ops : List (String × String)) (name : String)
    (data : List (String × TVal))
    (hname : alookup name
      (ops.foldl (fun m p => registerTemplate p.1 p.2 m) initialTemplates) = none) :
    (alookup "default"
      (ops.foldl (fun m p => registerTemplate p.1 p.2 m) initialTemplates)).isSome = true ∧
    renderTemplate (ops.foldl (fun m p => registerTemplate p.1 p.2 m) initialTemplates)
        name data =
      renderTemplate (ops.foldl (fun m p => registerTemplate p.1 p.2 m) initialTemplates)
        "default" data ∧
    (renderTemplate (ops.foldl (fun m p => registerTemplate p.1 p.2 m) initialTemplates)
        name data).isSome = true := by
  have hdef : (alookup "default"
      (ops.foldl (fun m p => registerTemplate p.1 p.2 m) initialTemplates)).isSome = true :=
    default_present ops initialTemplates rfl
  obtain ⟨t, ht⟩ := Option.isSome_iff_exists.mp hdef
  have e1 : renderTemplate (ops.foldl (fun m p => registerTemplate p.1 p.2 m)
      initialTemplates) name data = some (substTemplate t.template data) := by
    unfold renderTemplate
    rw [hname, ht]
  have e2 : renderTemplate (ops.foldl (fun m p => registerTemplate p.1 p.2 m)
      initialTemplates) "default" data = some (substTemplate t.template data) := by
    unfold renderTemplate
    rw [ht]
  exact ⟨hdef, e1.trans e2.symm, by rw [e1]; rfl⟩

/-- Witness for C7: after registering one extra template, rendering an
unregistered name equals (and succeeds like) rendering `default`. -/
theorem c7_template_fallback_witness :
    (alookup "default"
      ([("extra", "body")].foldl (fun m p => registerTemplate p.1 p.2 m)
        initialTemplates)).isSome = true ∧
    renderTemplate ([("extra", "body")].foldl (fun m p => registerTemplate p.1 p.2 m)
        initialTemplates) "missing-template" [] =
      renderTemplate ([("extra", "body")].foldl (fun m p => registerTemplate p.1 p.2 m)
        initialTemplates) "default" [] ∧
    (renderTemplate ([("extra", "body")].foldl (fun m p => registerTemplate p.1 p.2 m)
        initialTemplates) "missing-template" []).isSome = true :=
  c7_template_fallback [("extra", "body")] "missing-template" [] (by decide)

/-! ## Claim C3 -/

/-- Searching any query against an empty index yields no results. -/
theorem searchConclusions_nil (q : String) : searchConclusions q [] = [] := by
  have h : ∀ (terms : List String) (acc : List (String × Nat)),
      terms.foldl (fun acc term =>
        (lookupIdx term ([] : SearchIndex)).foldl (fun a id => bumpScore id a) acc) acc
        = acc := by
    intro terms
    induction terms with
    | nil => intro acc; rfl
    | cons t ts ih =>
      intro acc
      rw [List.foldl_cons]
      exact ih acc
  simp only [searchConclusions]
  rw [h]
  rfl

/-- The index a `saveWithStorage` call ends with is exactly the index its
own rendered block produces from the fresh empty index. -/
theorem saveWithStorage_index (pp why what : String) (params : StorageParams)
    (tMeta tSave : Nat) (d tm : String) (w : FsWorld) (hpp : pp ≠ "") :
    (saveWithStorage okPlan pp why what params tMeta tSave d tm w).2.1.searchIndex =
      indexContent ("conclusion-" ++ natToStr tSave)
        (generateCustomConclusion initialTemplates tMeta why what params) [] := by
  unfold saveWithStorage processConclusion saveConclusion
  simp only [if_neg hpp]
  rw [show mkCoConuT_Storage.templates = initialTemplates from rfl]
  rw [prepareAndSaveContent_ok _ _ _ _ _ _ _ hpp]
  have hsem := hasSemanticHeader_render tMeta why what params
  simp [hsem, mkCoConuT_Storage]

/-- Claim C3: every `saveWithStorage` call constructs a brand-new
`CoConuT_Storage` whose search index starts empty (searching it finds
nothing), and the index it ends with only ever contains the id generated
by that same call — terms indexed by one record call are never visible
through a later store instance. -/
theorem c3_fresh_index_per_call (pp why what : String) (params : StorageParams)
    (tMeta tSave : Nat) (d tm : String) (w : FsWorld) (q : String) (hpp : pp ≠ "") :
    mkCoConuT_Storage.searchIndex = [] ∧
    searchConclusions q mkCoConuT_Storage.searchIndex = [] ∧
    (∀ e ∈ (saveWithStorage okPlan pp why what params tMeta tSave d tm w).2.1.searchIndex,
      ∀ id ∈ e.2, id = "conclusion-" ++ natToStr tSave) := by
  refine ⟨rfl, searchConclusions_nil q, ?_⟩
  intro e he id hid
  rw [saveWithStorage_index pp why what params tMeta tSave d tm w hpp] at he
  exact indexContent_ids _ _ [] (fun x => x = "conclusion-" ++ natToStr tSave)
    rfl (by simp) e he id hid

/-- Witness for C3 on a concrete call: the one id the final index holds
for the term "medium" is this call's own save-instant id. -/
theorem c3_fresh_index_per_call_witness :
    ("conclusion-1" : String) = "conclusion-" ++ natToStr 1 :=
  (c3_fresh_index_per_call "/p" "needed auth" "added JWT middleware" emptyParams 0 1
      "d" "t" { dirExists := false, file := none } "q" (by decide)).2.2
    ("medium", ["conclusion-1"]) (by decide) "conclusion-1" (by decide)

/-! ## Claim C2 -/

/-- Claim C2, counterexample: in a run whose metadata is created at
millisecond 0 but saved at millisecond 1, the rendered block's marker
comment carries the metadata id `conclusion-0` while the markdown is
indexed under the fresh save-time id `conclusion-1` — the indexed id is
NOT the id embedded in the marker. -/
theorem c2_counterexample :
    (generateMetadata 0 [] emptyParams).id = "conclusion-0" ∧
    strIncludes (generateCustomConclusion initialTemplates 0 "why needed" "what done"
      emptyParams) "<!-- metadata:conclusion-0 -->" = true ∧
    lookupIdx "done" (saveWithStorage okPlan "/p" "why needed" "what done" emptyParams
      0 1 "d" "t" { dirExists := false, file := none }).2.1.searchIndex =
      ["conclusion-1"] ∧
    ("conclusion-1" : String) ≠ "conclusion-0" := by
  refine ⟨by decide, by decide, by decide, by decide⟩

/-- Claim C2 (amended): the rendered markdown is indexed under a fresh id
`conclusion-<save instant>` generated inside `prepareAndSaveContent`,
while the marker comment embeds the metadata id
`conclusion-<creation instant>`; the two coincide exactly when the save
happens in the same millisecond in which the metadata was created. -/
theorem c2_index_id_is_save_instant (pp why what : String) (params : StorageParams)
    (tMeta tSave : Nat) (d tm : String) (w : FsWorld) (hpp : pp ≠ "") :
    (∀ e ∈ (saveWithStorage okPlan pp why what params tMeta tSave d tm w).2.1.searchIndex,
      ∀ id ∈ e.2, id = "conclusion-" ++ natToStr tSave) ∧
    (generateMetadata tMeta [] params).id = "conclusion-" ++ natToStr tMeta ∧
    (("conclusion-" ++ natToStr tSave : String) = "conclusion-" ++ natToStr tMeta ↔
      tSave = tMeta) := by
  refine ⟨?_, rfl, ?_, ?_⟩
  · intro e he id hid
    rw [saveWithStorage_index pp why what params tMeta tSave d tm w hpp] at he
    exact indexContent_ids _ _ [] (fun x => x = "conclusion-" ++ natToStr tSave)
      rfl (by simp) e he id hid
  · intro h
    have h2 := congrArg String.data h
    rw [String.data_append, String.data_append] at h2
    exact natToStr_inj tSave tMeta (String.ext (List.append_cancel_left h2))
  · intro h
    rw [h]

/-- Witness for the amended C2 on a concrete run saved one millisecond
after its metadata was created. -/
theorem c2_index_id_is_save_instant_witness :
    ("conclusion-1" : String) = "conclusion-" ++ natToStr 1 ∧
    (("conclusion-" ++ natToStr 1 : String) = "conclusion-" ++ natToStr 0 ↔
      (1 : Nat) = 0) := by
  have h := c2_index_id_is_save_instant "/p" "why needed" "what done" emptyParams 0 1
    "d" "t" { dirExists := false, file := none } (by decide)
  exact ⟨h.1 ("done", ["conclusion-1"]) (by decide) "conclusion-1" (by decide), h.2.2⟩
